import Mathlib

/-!
Verification of the Checkmarx CSV → consolidated report core
(`checkmarx_consolidated_final.py`): the loader/filter and the
consolidator (grouping, occurrence formatting, severity selection).

The pandas pipeline is embedded shallowly:
* a CSV loaded with `dtype=str, keep_default_na=False` + `.fillna("")` is a
  `DataFrame`: a column schema plus rows of string-valued fields, where a
  field absent from a row reads as the empty string;
* `df[col]` on a column absent from the schema raises `KeyError`, embedded
  as the `Except.error` branch of `load_and_clean`;
* `df.groupby(key)` (default `sort=True`) yields one group per distinct key
  value, keys in ascending lexicographic order, rows inside each group kept
  in original order.
Python's `str.strip` / `str.lower` are embedded by `String.trim` /
`String.toLower`; they agree on the ASCII data these fields hold.
-/

namespace Checkmarx

/-- A raw row: a mapping from field name to string value.  `fillna("")`
plus `dtype=str` make every value a string, and an absent field reads as
the empty string. -/
structure Row where
  fields : List (String × String)
  deriving DecidableEq, Repr

/-- Field lookup with empty-string default, mirroring `row.get(fld, "")`. -/
def Row.get (r : Row) (fld : String) : String :=
  match r.fields.find? (fun p => p.1 == fld) with
  | some p => p.2
  | none => ""

/-- A loaded table: the column schema plus the rows. -/
structure DataFrame where
  columns : List String
  rows : List Row
  deriving DecidableEq, Repr

/-- The ten occurrence detail fields, in their fixed order (`DETAIL_FIELDS`). -/
def DETAIL_FIELDS : List String :=
  ["SrcFileName", "Line", "Column", "NodeId", "Name",
   "DestFileName", "DestLine", "DestColumn", "DestNodeId", "DestName"]

/-- Friendly label for each detail field (`LABEL_MAP`).  The Python dict is
only ever indexed at the ten detail fields; other keys are irrelevant. -/
def LABEL_MAP (fld : String) : String :=
  if fld == "SrcFileName" then "Source File"
  else if fld == "Line" then "Line"
  else if fld == "Column" then "Column"
  else if fld == "NodeId" then "Node ID"
  else if fld == "Name" then "Function"
  else if fld == "DestFileName" then "Dest File"
  else if fld == "DestLine" then "Dest Line"
  else if fld == "DestColumn" then "Dest Column"
  else if fld == "DestNodeId" then "Dest Node ID"
  else if fld == "DestName" then "Dest Function"
  else ""

/-- Python `str.strip()`: drop leading and trailing whitespace.  Embedded
structurally over the character list; agrees with Python on the ASCII
whitespace these fields can hold. -/
def pyStrip (s : String) : String :=
  ⟨(((s.data.dropWhile Char.isWhitespace).reverse).dropWhile
      Char.isWhitespace).reverse⟩

/-- Python `str.lower()`, embedded as the ASCII case mapping over the
character list (it agrees with Python on ASCII data). -/
def pyLower (s : String) : String :=
  ⟨s.data.map Char.toLower⟩

/-- The row-level keep condition of the filter in `load_and_clean`:
`~df["Result Severity"].str.strip().str.lower().isin(["", "none"])`. -/
def sevKeep (s : String) : Bool :=
  !(["", "none"].contains (pyLower (pyStrip s)))

/-- The row filter applied by `load_and_clean` once the severity column is
known to exist. -/
def filterSevRows (rows : List Row) : List Row :=
  rows.filter (fun r => sevKeep (r.get "Result Severity"))

/-- `load_and_clean`: indexing `df["Result Severity"]` raises `KeyError`
when the column is absent from the schema; otherwise the rows whose
severity is blank or `none` (trimmed, lowercased) are dropped. -/
def load_and_clean (df : DataFrame) : Except String (List Row) :=
  if "Result Severity" ∈ df.columns then
    Except.ok (filterSevRows df.rows)
  else
    Except.error "KeyError: Result Severity"

/-- `fmt_occurrence`: walk the detail fields in order, keep the non-empty
ones as `label=value`, join with `", "`. -/
def fmt_occurrence (row : Row) : String :=
  String.intercalate ", "
    (DETAIL_FIELDS.filterMap (fun fld =>
      let val := row.get fld
      if val = "" then none else some (LABEL_MAP fld ++ "=" ++ val)))

/-- The `OccText` aggregation of `consolidate`:
`"\n\n".join(f"{i+1}) {txt}" for i, txt in enumerate(items))`. -/
def numberJoin (items : List String) : String :=
  String.intercalate "\n\n"
    (items.enum.map (fun p => toString (p.1 + 1) ++ ") " ++ p.2))

/-- The severity priority order (`SEVERITIES`). -/
def SEVERITIES : List String :=
  ["Critical", "High", "Medium", "Low", "Information"]

/-- `pick_severity`: scan `SEVERITIES[:-1]` and return the first value
present (by exact string equality) in the group's severity list; fall back
to `"Information"` if present, else the empty string. -/
def pick_severity (sevs : List String) : String :=
  match SEVERITIES.dropLast.find? (fun sev => sevs.contains sev) with
  | some sev => sev
  | none => if sevs.contains "Information" then "Information" else ""

/-- One output record: the `OUTPUT_COLS` of a group, in column order. -/
structure OutputRecord where
  vulnerabilityType : String
  occurrences : String
  severity : String
  totalFindings : Nat
  deriving DecidableEq, Repr

/-- The record `consolidate` produces for the group of key `q` out of the
full row list: rows of the group in original order, `OccText` aggregated by
`numberJoin`, severities aggregated by `list`, then `Total Findings` and
`Severity` derived from the severity list. -/
def groupRecord (rows : List Row) (q : String) : OutputRecord :=
  let grp := rows.filter (fun r => r.get "Query" == q)
  { vulnerabilityType := q
    occurrences := numberJoin (grp.map fmt_occurrence)
    severity := pick_severity (grp.map (fun r => r.get "Result Severity"))
    totalFindings := (grp.map (fun r => r.get "Result Severity")).length }

/-- Lexicographic comparison of character lists by code point, the order
Python uses to compare strings (`charListLe as bs` means `as <= bs`). -/
def charListLe : List Char → List Char → Bool
  | [], _ => true
  | _ :: _, [] => false
  | a :: as, b :: bs =>
    if a < b then true
    else if b < a then false
    else charListLe as bs

/-- Python string comparison `a <= b`: lexicographic by code point. -/
def pyLe (a b : String) : Prop :=
  charListLe a.data b.data = true

instance : DecidableRel pyLe :=
  fun _ _ => instDecidableEqBool _ _

/-- The group keys of `df.groupby("Query")`: the distinct `Query` values,
in ascending lexicographic order (the default `sort=True`). -/
def sortedKeys (rows : List Row) : List String :=
  ((rows.map (fun r => r.get "Query")).dedup).insertionSort pyLe

/-- `consolidate`: `df.groupby("Query")` forms one group per distinct
`Query` value and, with the default `sort=True`, emits the groups in
ascending lexicographic key order. -/
def consolidate (rows : List Row) : List OutputRecord :=
  (sortedKeys rows).map (groupRecord rows)

/-! ### Spec-side definitions

Re-statements taken from the specification's words, used on the right-hand
side of the refinement claims.  They are deliberately written differently
from the source-side definitions above. -/

/-- First-occurrence (encounter-order) deduplication: the group order the
specification prescribes for the consolidated output. -/
def dedupFirstAux (seen : List String) : List String → List String
  | [] => []
  | q :: qs =>
    if q ∈ seen then dedupFirstAux seen qs
    else q :: dedupFirstAux (q :: seen) qs

/-- The distinct values of a list, in first-occurrence order. -/
def dedupFirst (l : List String) : List String :=
  dedupFirstAux [] l

/-- The spec's per-row keep condition: the severity field, after trimming
whitespace and lowercasing, is neither empty nor the literal `none`. -/
def specKeep (r : Row) : Prop :=
  pyLower (pyStrip (r.get "Result Severity")) ≠ "" ∧
  pyLower (pyStrip (r.get "Result Severity")) ≠ "none"

instance (r : Row) : Decidable (specKeep r) := by
  unfold specKeep; infer_instance

/-- The ten detail fields paired with their friendly labels, in the fixed
order the specification lists them. -/
def SPEC_DETAIL : List (String × String) :=
  [("SrcFileName", "Source File"), ("Line", "Line"), ("Column", "Column"),
   ("NodeId", "Node ID"), ("Name", "Function"),
   ("DestFileName", "Dest File"), ("DestLine", "Dest Line"),
   ("DestColumn", "Dest Column"), ("DestNodeId", "Dest Node ID"),
   ("DestName", "Dest Function")]

/-- The spec's per-row occurrence text: iterate the fixed field list, skip
fields with empty value, render each kept field as `label=value`, join
with `", "`. -/
def specOccurrenceText (row : Row) : String :=
  String.intercalate ", "
    (SPEC_DETAIL.filterMap (fun p =>
      if row.get p.1 = "" then none else some (p.2 ++ "=" ++ row.get p.1)))

/-- The spec's numbering of a group's occurrence texts: render each as
`n) text` with `n` counting up from the given start. -/
def specNumbered : Nat → List String → List String
  | _, [] => []
  | n, t :: ts => (toString n ++ ") " ++ t) :: specNumbered (n + 1) ts

/-- The spec's per-group occurrence text: occurrences numbered from 1,
joined with a blank line (two consecutive line breaks). -/
def specNumberJoin (items : List String) : String :=
  String.intercalate "\n\n" (specNumbered 1 items)

/-- The spec's severity selection: the first entry of the priority list
that occurs anywhere in the group's severity sequence, or the empty string
when none of the five entries occurs. -/
def specRepresentativeSeverity (sevs : List String) : String :=
  match SEVERITIES.find? (fun sev => sevs.contains sev) with
  | some sev => sev
  | none => ""

/-! ### Order facts about the key comparator -/

theorem charListLe_iff_not_lex (as bs : List Char) :
    charListLe as bs = true ↔ ¬ List.Lex (· < ·) bs as := by
  induction as generalizing bs with
  | nil =>
    cases bs with
    | nil => simp [charListLe, List.Lex.not_nil_right]
    | cons b bs => simp [charListLe, List.Lex.not_nil_right]
  | cons a as ih =>
    cases bs with
    | nil =>
      simp only [charListLe, Bool.false_eq_true, false_iff, not_not]
      exact List.Lex.nil
    | cons b bs =>
      by_cases hab : a < b
      · simp only [charListLe, if_pos hab, true_iff]
        intro h
        cases h with
        | cons h => exact absurd hab (lt_irrefl _)
        | rel h => exact absurd hab (lt_asymm h)
      · by_cases hba : b < a
        · simp only [charListLe, if_neg hab, if_pos hba, Bool.false_eq_true,
            false_iff, not_not]
          exact List.Lex.rel hba
        · have heq : a = b := le_antisymm (le_of_not_lt hba) (le_of_not_lt hab)
          subst heq
          simp only [charListLe, if_neg hab]
          rw [ih bs]
          constructor
          · intro h hlex
            exact h ((List.Lex.cons_iff).mp hlex)
          · intro h hlex
            exact h (List.Lex.cons hlex)

/-- The embedded Python string comparison agrees with the lexicographic
order on `String`. -/
theorem pyLe_iff_le (a b : String) : pyLe a b ↔ a ≤ b := by
  show charListLe a.data b.data = true ↔ a ≤ b
  rw [charListLe_iff_not_lex, String.le_iff_toList_le, ← not_lt]
  exact Iff.rfl

instance : IsTrans String pyLe :=
  ⟨fun a b c hab hbc =>
    (pyLe_iff_le a c).mpr (le_trans ((pyLe_iff_le a b).mp hab)
      ((pyLe_iff_le b c).mp hbc))⟩

instance : IsTotal String pyLe :=
  ⟨fun a b =>
    (le_total a b).imp (pyLe_iff_le a b).mpr (pyLe_iff_le b a).mpr⟩

/-! ### Helper lemmas -/

theorem count_filter_eq {α : Type} [DecidableEq α] (p : α → Bool)
    (l : List α) (a : α) :
    (l.filter p).count a = if p a = true then l.count a else 0 := by
  induction l with
  | nil => simp
  | cons b l ih =>
    by_cases hb : p b = true
    · rw [List.filter_cons_of_pos hb, List.count_cons, List.count_cons, ih]
      by_cases hab : a = b
      · subst hab; simp [hb]
      · have hba : ¬b = a := fun h => hab h.symm
        simp [hba]
    · rw [List.filter_cons_of_neg hb, ih, List.count_cons]
      by_cases hab : a = b
      · subst hab; simp [hb]
      · have hba : ¬b = a := fun h => hab h.symm
        simp [hba]

theorem sevKeep_iff_specKeep (r : Row) :
    sevKeep (r.get "Result Severity") = true ↔ specKeep r := by
  unfold sevKeep specKeep
  simp [not_or]

theorem specNumbered_enumFrom (ts : List String) :
    ∀ k : Nat, (List.enumFrom k ts).map
        (fun p => toString (p.1 + 1) ++ ") " ++ p.2)
      = specNumbered (k + 1) ts := by
  induction ts with
  | nil => intro k; rfl
  | cons t ts ih =>
    intro k
    simp only [List.enumFrom, List.map_cons, specNumbered]
    rw [ih (k + 1)]

theorem numberJoin_eq_specNumberJoin (items : List String) :
    numberJoin items = specNumberJoin items := by
  unfold numberJoin specNumberJoin
  rw [show items.enum = List.enumFrom 0 items from rfl,
    specNumbered_enumFrom items 0]

theorem consolidate_keys (rows : List Row) :
    (consolidate rows).map OutputRecord.vulnerabilityType = sortedKeys rows := by
  unfold consolidate
  rw [List.map_map]
  have h : OutputRecord.vulnerabilityType ∘ groupRecord rows = id := by
    funext q; rfl
  rw [h, List.map_id]

theorem mem_sortedKeys {rows : List Row} {q : String} :
    q ∈ sortedKeys rows ↔ q ∈ rows.map (fun r => r.get "Query") := by
  unfold sortedKeys
  rw [(List.perm_insertionSort pyLe _).mem_iff, List.mem_dedup]

theorem mem_consolidate {rows : List Row} {rec : OutputRecord} :
    rec ∈ consolidate rows ↔
      ∃ q, q ∈ sortedKeys rows ∧ groupRecord rows q = rec := by
  unfold consolidate
  exact List.mem_map

theorem groupRecord_totalFindings (rows : List Row) (q : String) :
    (groupRecord rows q).totalFindings =
      (rows.filter (fun r => r.get "Query" == q)).length := by
  show (List.map _ _).length = _
  rw [List.length_map]

theorem pick_severity_eq_spec (sevs : List String) :
    pick_severity sevs = specRepresentativeSeverity sevs := by
  unfold pick_severity specRepresentativeSeverity SEVERITIES
  by_cases h1 : "Critical" ∈ sevs <;>
    by_cases h2 : "High" ∈ sevs <;>
      by_cases h3 : "Medium" ∈ sevs <;>
        by_cases h4 : "Low" ∈ sevs <;>
          by_cases h5 : "Information" ∈ sevs <;>
            simp [List.find?, List.dropLast, h1, h2, h3, h4, h5]

/-! ### Concrete inputs used by counterexamples and witnesses -/

/-- Two rows whose identifiers arrive in the order `Beta`, `Alpha`:
encounter order and sorted order disagree. -/
def rowsBA : List Row :=
  [⟨[("Query", "Beta"), ("Result Severity", "High")]⟩,
   ⟨[("Query", "Alpha"), ("Result Severity", "High")]⟩]

/-- The spec's own end-to-end example: two `SQLi` rows. -/
def rowsW : List Row :=
  [⟨[("Query", "SQLi"), ("Result Severity", "High"),
     ("SrcFileName", "x.c"), ("Line", "5")]⟩,
   ⟨[("Query", "SQLi"), ("Result Severity", "Critical"),
     ("SrcFileName", "y.c"), ("Line", "9")]⟩]

/-- The single output record `consolidate` produces for `rowsW`. -/
def recW : OutputRecord :=
  ⟨"SQLi", "1) Source File=x.c, Line=5\n\n2) Source File=y.c, Line=9",
   "Critical", 2⟩

/-- A well-formed two-row table, one row of which has severity `none`. -/
def dfW : DataFrame :=
  ⟨["Query", "Result Severity"],
   [⟨[("Query", "A"), ("Result Severity", "High")]⟩,
    ⟨[("Query", "B"), ("Result Severity", "none")]⟩]⟩

/-- The rows of `dfW` surviving the severity filter. -/
def outW : List Row :=
  [⟨[("Query", "A"), ("Result Severity", "High")]⟩]

/-- A table whose schema lacks the mandatory severity column. -/
def dfNoSev : DataFrame :=
  ⟨["Query"], [⟨[("Query", "A")]⟩]⟩

/-- A table whose single row has the lowercase severity `critical`. -/
def dfLowercase : DataFrame :=
  ⟨["Query", "Result Severity"],
   [⟨[("Query", "SQLi"), ("Result Severity", "critical")]⟩]⟩

/-! ### Claims -/

/-- C1 (amended): the consolidator returns exactly one output record per
distinct vulnerability identifier, but the records appear in ascending
lexicographic order of the identifier (pandas `groupby` sorts its keys),
not in first-occurrence order. -/
theorem consolidate_groups_sorted_by_key (rows : List Row) :
    ((consolidate rows).map OutputRecord.vulnerabilityType).Nodup ∧
    List.Sorted (· ≤ ·)
      ((consolidate rows).map OutputRecord.vulnerabilityType) ∧
    (∀ q : String,
      q ∈ (consolidate rows).map OutputRecord.vulnerabilityType ↔
        q ∈ rows.map (fun r => r.get "Query")) := by
  rw [consolidate_keys]
  refine ⟨?_, ?_, fun q => mem_sortedKeys⟩
  · unfold sortedKeys
    exact (List.perm_insertionSort pyLe _).symm.nodup (List.nodup_dedup _)
  · unfold sortedKeys
    have hs := List.sorted_insertionSort pyLe
      ((rows.map (fun r => r.get "Query")).dedup)
    exact hs.imp (fun h => (pyLe_iff_le _ _).mp h)

/-- C1 counterexample: on input rows whose identifiers arrive as `Beta`
then `Alpha`, the output is in sorted order `Alpha, Beta`, not in the
first-occurrence order `Beta, Alpha` the claim states. -/
theorem consolidate_first_occurrence_order_fails :
    dedupFirst (rowsBA.map (fun r => r.get "Query")) = ["Beta", "Alpha"] ∧
    (consolidate rowsBA).map OutputRecord.vulnerabilityType
      = ["Alpha", "Beta"] ∧
    (consolidate rowsBA).map OutputRecord.vulnerabilityType ≠
      dedupFirst (rowsBA.map (fun r => r.get "Query")) :=
  ⟨by decide, by decide, by decide⟩

/-- C2: for a non-empty severity sequence the representative severity is
the first entry of the priority list present in the sequence (empty string
when none of the five occurs); any occurrence of `Critical` wins. -/
theorem pick_severity_matches_priority_policy (sevs : List String)
    (h : sevs ≠ []) :
    pick_severity sevs = specRepresentativeSeverity sevs ∧
    ("Critical" ∈ sevs → pick_severity sevs = "Critical") ∧
    ((∀ s, s ∈ SEVERITIES → s ∉ sevs) → pick_severity sevs = "") := by
  refine ⟨pick_severity_eq_spec sevs, fun hc => ?_, fun hn => ?_⟩
  · have hdl : SEVERITIES.dropLast = ["Critical", "High", "Medium", "Low"] :=
      by decide
    unfold pick_severity
    rw [hdl]
    simp [List.find?, hc]
  · have h1 : "Critical" ∉ sevs := hn _ (by decide)
    have h2 : "High" ∉ sevs := hn _ (by decide)
    have h3 : "Medium" ∉ sevs := hn _ (by decide)
    have h4 : "Low" ∉ sevs := hn _ (by decide)
    have h5 : "Information" ∉ sevs := hn _ (by decide)
    unfold pick_severity
    simp [SEVERITIES, List.find?, List.dropLast, h1, h2, h3, h4, h5]

theorem pick_severity_matches_priority_policy_witness :
    (["Low", "Critical"] : List String) ≠ [] ∧
    (pick_severity ["Low", "Critical"]
        = specRepresentativeSeverity ["Low", "Critical"] ∧
      ("Critical" ∈ (["Low", "Critical"] : List String) →
        pick_severity ["Low", "Critical"] = "Critical") ∧
      ((∀ s, s ∈ SEVERITIES → s ∉ (["Low", "Critical"] : List String)) →
        pick_severity ["Low", "Critical"] = "")) :=
  ⟨by decide, pick_severity_matches_priority_policy _ (by decide)⟩

/-- C3: with the severity column present, the loader returns the
subsequence of the input rows (order preserved) containing exactly those
rows whose severity, trimmed and lowercased, is neither empty nor
`none`. -/
theorem load_and_clean_keeps_exactly_recognized_rows (df : DataFrame)
    (h : "Result Severity" ∈ df.columns) :
    ∃ out : List Row, load_and_clean df = Except.ok out ∧
      out.Sublist df.rows ∧
      ∀ r : Row, out.count r = if specKeep r then df.rows.count r else 0 := by
  refine ⟨filterSevRows df.rows, ?_, List.filter_sublist _, fun r => ?_⟩
  · unfold load_and_clean
    rw [if_pos h]
  · unfold filterSevRows
    rw [count_filter_eq]
    by_cases hk : specKeep r
    · rw [if_pos ((sevKeep_iff_specKeep r).mpr hk), if_pos hk]
    · rw [if_neg (fun hc => hk ((sevKeep_iff_specKeep r).mp hc)), if_neg hk]

theorem load_and_clean_keeps_exactly_recognized_rows_witness :
    "Result Severity" ∈ dfW.columns ∧
    (∃ out : List Row, load_and_clean dfW = Except.ok out ∧
      out.Sublist dfW.rows ∧
      ∀ r : Row, out.count r = if specKeep r then dfW.rows.count r else 0) :=
  ⟨by decide, load_and_clean_keeps_exactly_recognized_rows dfW (by decide)⟩

/-- C4: the per-row occurrence text iterates the ten detail fields in
their fixed order, skips empty fields, renders `label=value` and joins
with `", "`; in particular a row with only `SrcFileName=a.c` and `Line=10`
renders as `Source File=a.c, Line=10`. -/
theorem fmt_occurrence_matches_spec_format (row : Row) :
    fmt_occurrence row = specOccurrenceText row ∧
    fmt_occurrence ⟨[("SrcFileName", "a.c"), ("Line", "10")]⟩ =
      "Source File=a.c, Line=10" := by
  constructor
  · have hp : SPEC_DETAIL = DETAIL_FIELDS.map (fun f => (f, LABEL_MAP f)) :=
      by decide
    unfold fmt_occurrence specOccurrenceText
    rw [hp, List.filterMap_map]
    rfl
  · decide

/-- C5: each output record's occurrence text is the group's per-row texts
numbered from 1 in row order, rendered `n) text` and joined by a blank
line (two consecutive line breaks). -/
theorem consolidate_occurrence_text_numbered (rows : List Row)
    (rec : OutputRecord) (h : rec ∈ consolidate rows) :
    rec.occurrences = specNumberJoin
      ((rows.filter (fun r => r.get "Query" == rec.vulnerabilityType)).map
        fmt_occurrence) := by
  obtain ⟨q, hq, hrec⟩ := mem_consolidate.mp h
  subst hrec
  show numberJoin
      ((rows.filter (fun r => r.get "Query" == q)).map fmt_occurrence) = _
  rw [numberJoin_eq_specNumberJoin]
  rfl

theorem consolidate_occurrence_text_numbered_witness :
    recW ∈ consolidate rowsW ∧
    recW.occurrences = specNumberJoin
      ((rowsW.filter (fun r => r.get "Query" == recW.vulnerabilityType)).map
        fmt_occurrence) :=
  ⟨by decide, consolidate_occurrence_text_numbered rowsW recW (by decide)⟩

/-- C6: each output record's total finding count equals the number of
filtered rows sharing its identifier (duplicates retained), and is at
least 1. -/
theorem consolidate_total_findings_count (rows : List Row)
    (rec : OutputRecord) (h : rec ∈ consolidate rows) :
    rec.totalFindings =
      (rows.filter (fun r => r.get "Query" == rec.vulnerabilityType)).length ∧
    1 ≤ rec.totalFindings := by
  obtain ⟨q, hq, hrec⟩ := mem_consolidate.mp h
  subst hrec
  refine ⟨groupRecord_totalFindings rows q, ?_⟩
  rw [groupRecord_totalFindings rows q]
  obtain ⟨r, hr, hrq⟩ := List.mem_map.mp (mem_sortedKeys.mp hq)
  exact List.length_pos_of_mem
    (List.mem_filter.mpr ⟨hr, by rw [hrq]; exact beq_self_eq_true q⟩)

theorem consolidate_total_findings_count_witness :
    recW ∈ consolidate rowsW ∧
    (recW.totalFindings =
      (rowsW.filter
        (fun r => r.get "Query" == recW.vulnerabilityType)).length ∧
      1 ≤ recW.totalFindings) :=
  ⟨by decide, consolidate_total_findings_count rowsW recW (by decide)⟩

/-- C7: the identifiers appearing in the consolidated output are exactly
the distinct identifiers of the rows surviving the severity filter. -/
theorem consolidate_identifier_set_preserved (df : DataFrame)
    (out : List Row) (h : load_and_clean df = Except.ok out) (q : String) :
    q ∈ (consolidate out).map OutputRecord.vulnerabilityType ↔
      q ∈ out.map (fun r => r.get "Query") := by
  rw [consolidate_keys]
  exact mem_sortedKeys

theorem consolidate_identifier_set_preserved_witness :
    load_and_clean dfW = Except.ok outW ∧
    ("A" ∈ (consolidate outW).map OutputRecord.vulnerabilityType ↔
      "A" ∈ outW.map (fun r => r.get "Query")) :=
  ⟨rfl, consolidate_identifier_set_preserved dfW outW rfl "A"⟩

/-- C8: when the severity column is absent from the schema, the loader
fails with an error before producing any output. -/
theorem load_and_clean_missing_severity_fails (df : DataFrame)
    (h : "Result Severity" ∉ df.columns) :
    load_and_clean df = Except.error "KeyError: Result Severity" := by
  unfold load_and_clean
  rw [if_neg h]

theorem load_and_clean_missing_severity_fails_witness :
    "Result Severity" ∉ dfNoSev.columns ∧
    load_and_clean dfNoSev = Except.error "KeyError: Result Severity" :=
  ⟨by decide, load_and_clean_missing_severity_fails dfNoSev (by decide)⟩

/-- C9: the severity filter is idempotent. -/
theorem severity_filter_idempotent (rows : List Row) :
    filterSevRows (filterSevRows rows) = filterSevRows rows := by
  unfold filterSevRows
  rw [List.filter_filter]
  simp only [Bool.and_self]

/-- C10: the filter recognizes severities after trimming and lowercasing
but `pick_severity` matches exactly, so `critical` or ` High ` survive the
filter and are counted, yet a group of only such rows has an empty
representative severity. -/
theorem severity_recognition_asymmetry :
    sevKeep "critical" = true ∧ sevKeep " High " = true ∧
    pick_severity ["critical"] = "" ∧ pick_severity [" High "] = "" ∧
    load_and_clean dfLowercase = Except.ok dfLowercase.rows ∧
    consolidate dfLowercase.rows =
      [{ vulnerabilityType := "SQLi", occurrences := "1) ",
         severity := "", totalFindings := 1 }] :=
  ⟨by decide, by decide, by decide, by decide, rfl, by decide⟩

end Checkmarx
